import Mathlib

/-
Verification of the SajiloHire scoring core (services/scoring_engine.py and
config.py) over a shallow embedding in Lean.  Python floats are modelled as
rationals; Python lists, sets and dicts as Lean lists, finsets and explicit
structures.  Every definition mirrors the corresponding source function.
-/

namespace Sajilo

/-! ## Python string primitives -/

/-- Membership test of a pattern inside a list of characters, mirroring the
Python substring operator (`pat in s`); the empty pattern is contained in
every string, as in Python. -/
def containsSub (pat : List Char) : List Char → Bool
  | [] => pat.isEmpty
  | c :: rest => pat.isPrefixOf (c :: rest) || containsSub pat rest

/-- Python substring test (`pat in s`). -/
def strContains (s pat : String) : Bool :=
  containsSub pat.toList s.toList

/-- Python `str.lower()`: lower-case every character. -/
def pyLower (s : String) : String := String.mk (s.data.map Char.toLower)

/-- Accumulating splitter over the character list: `cur` holds the characters
of the word currently being read, in reverse. -/
def wordsAux (cur : List Char) : List Char → List (List Char)
  | [] => if cur.isEmpty then [] else [cur.reverse]
  | c :: rest =>
      if c.isWhitespace then
        if cur.isEmpty then wordsAux [] rest else cur.reverse :: wordsAux [] rest
      else wordsAux (c :: cur) rest

/-- Python `str.split()` with no argument: split on whitespace runs,
dropping empty pieces. -/
def pySplit (s : String) : List String :=
  (wordsAux [] s.data).map String.mk

/-- Python truthiness of an optional string field (`if field:`): present and
non-empty. -/
def truthy : Option String → Bool
  | none => false
  | some s => !s.isEmpty

/-- Number of matches of a regex of the shape digits-then-literal-suffix
(such as the patterns in quantification_patterns of scoring_engine.py,
re.findall with patterns like a number followed by a percent sign or a unit
word): each match corresponds to exactly one position holding a digit that
is immediately followed by the literal suffix. -/
def countDigitSuffix (suffix : List Char) : List Char → Nat
  | [] => 0
  | c :: rest =>
      (if c.isDigit && suffix.isPrefixOf rest then 1 else 0) + countDigitSuffix suffix rest

/-- All unordered pairs of a list, each taken once in order, mirroring the
double loop over index pairs with the second index strictly larger in
scoring_engine.py line 270. -/
def listPairs {α : Type} : List α → List (α × α)
  | [] => []
  | x :: xs => xs.map (fun y => (x, y)) ++ listPairs xs

/-! ## Data model (models.py) -/

/-- ChatTurnRole enum, models.py lines 13-16. -/
inductive ChatTurnRole where
  | user
  | ai
  | system
deriving DecidableEq, Repr

/-- ChatTurnIntent enum, models.py lines 19-25. -/
inductive ChatTurnIntent where
  | skill_probe
  | motivation
  | trap
  | values
  | scenario
  | other
deriving DecidableEq, Repr

/-- The string value of a ChatTurnIntent member, as used by the checks of the
form a word contained in intent.value.lower() in scoring_engine.py. -/
def intentValue : ChatTurnIntent → String
  | .skill_probe => "skill_probe"
  | .motivation => "motivation"
  | .trap => "trap"
  | .values => "values"
  | .scenario => "scenario"
  | .other => "other"

/-- A chat turn (models.py lines 84-95); the intent column is nullable, hence
an optional value, matching the guards of the form intent tested for
truthiness before use in scoring_engine.py. -/
structure ChatTurn where
  role : ChatTurnRole
  intent : Option ChatTurnIntent
  content : String
deriving DecidableEq, Repr

/-- The fields of ExtendedPerson (models.py lines 28-55) read by the scoring
engine.  skills_tags has a list default; the free-text and link columns are
nullable. -/
structure ExtendedPerson where
  skills_tags : List String
  resume_text : Option String
  intro : Option String
  why_us : Option String
  linkedin : Option String
  github : Option String
deriving DecidableEq, Repr

/-- CandidateSignals (models.py lines 101-115), the value part recomputed by
the scoring engine. -/
structure CandidateSignals where
  consistency_score : ℚ
  depth_score : ℚ
  motivation_alignment : ℚ
  culture_alignment : ℚ
  turnover_risk : ℚ
  data_confidence : ℚ
  credibility_flag : Bool
  flags : List String
deriving DecidableEq, Repr

/-- The value part of CandidateScore (models.py lines 121-128). -/
structure CandidateScore where
  fit_score : ℚ
  fit_bucket : String
deriving DecidableEq, Repr

/-! ## Configuration (config.py) -/

/-- The five scoring weights (config.py lines 31-37). -/
structure ScoringWeights where
  role_fit : ℚ
  capability_depth : ℚ
  motivation_alignment : ℚ
  reliability_inverse_turnover : ℚ
  data_confidence : ℚ
deriving DecidableEq, Repr

/-- The two bucket thresholds (config.py lines 39-42). -/
structure ScoringThresholds where
  top : ℚ
  borderline : ℚ
deriving DecidableEq, Repr

/-- The application settings consumed by the scoring engine (config.py).
The pydantic Settings class declares these fields with plain defaults and no
validator of any kind. -/
structure Settings where
  SCORING_WEIGHTS : ScoringWeights
  SCORING_THRESHOLDS : ScoringThresholds
  FRAUD_PENALTY_MULTIPLIER : ℚ
  CHAT_MIN_TURNS : ℕ
deriving DecidableEq, Repr

/-- The default configuration values of config.py lines 31-47. -/
def defaultSettings : Settings :=
  { SCORING_WEIGHTS :=
      { role_fit := 0.35
        capability_depth := 0.20
        motivation_alignment := 0.15
        reliability_inverse_turnover := 0.15
        data_confidence := 0.15 }
    SCORING_THRESHOLDS := { top := 0.75, borderline := 0.50 }
    FRAUD_PENALTY_MULTIPLIER := 0.25
    CHAT_MIN_TURNS := 5 }

/-! ## Signal analyzers (scoring_engine.py lines 238-571) -/

/-- Test of one word of the intent value, as in the filters of the form a
word contained in intent.value.lower() guarded by intent truthiness
(scoring_engine.py lines 392 and 493). -/
def intentHas (i : Option ChatTurnIntent) (w : String) : Bool :=
  match i with
  | none => false
  | some x => strContains (pyLower (intentValue x)) w

/-- Average of a list of rationals, Python sum(l)/len(l). -/
def listAvg (l : List ℚ) : ℚ := l.sum / l.length

/-- technical_keywords, scoring_engine.py line 282. -/
def technical_keywords : List String :=
  ["implement", "develop", "design", "build", "create", "optimize", "scale"]

/-- Response length consistency (scoring_engine.py lines 249-255): one
factor when at least two user turns exist, otherwise no factor. -/
def length_consistency_factors (user_turns : List ChatTurn) : List ℚ :=
  let lengths : List ℚ := user_turns.map fun t => ((pySplit t.content).length : ℚ)
  if 1 < lengths.length then
    let avg_length := lengths.sum / lengths.length
    let length_variance :=
      (lengths.map fun l => ((l - avg_length) ^ 2 : ℚ)).sum / lengths.length
    [max 0 (if 0 < avg_length then 1 - length_variance / avg_length ^ 2 else 0.5)]
  else []

/-- Vocabulary consistency (scoring_engine.py lines 257-279): pairwise
Jaccard similarity of the lower-cased word sets of the user turns, skipping
pairs with an empty side, averaged; no factor when no pair was comparable. -/
def vocab_consistency_factors (user_turns : List ChatTurn) : List ℚ :=
  let response_vocabularies : List (Finset String) :=
    user_turns.map fun t => (pySplit (pyLower t.content)).toFinset
  if 1 < response_vocabularies.length then
    let overlaps := (listPairs response_vocabularies).filterMap fun p =>
      if p.1.card ≠ 0 ∧ p.2.card ≠ 0 then
        some (((p.1 ∩ p.2).card : ℚ) / ((p.1 ∪ p.2).card : ℚ))
      else none
    if overlaps.isEmpty then [] else [listAvg overlaps]
  else []

/-- Technical detail consistency (scoring_engine.py lines 281-293). -/
def tech_consistency_factors (user_turns : List ChatTurn) : List ℚ :=
  let tech_densities : List ℚ := user_turns.map fun t =>
    let words := pySplit (pyLower t.content)
    ((words.filter fun w => technical_keywords.contains w).length : ℚ) /
      ((max words.length 1 : ℕ) : ℚ)
  if 1 < tech_densities.length then
    let avg_tech_density := tech_densities.sum / tech_densities.length
    let tech_variance :=
      (tech_densities.map fun d => ((d - avg_tech_density) ^ 2 : ℚ)).sum /
        tech_densities.length
    [max 0 (1 - tech_variance * 10)]
  else []

/-- The consistency factors accumulated by scoring_engine.py lines 247-293. -/
def consistency_factors (user_turns : List ChatTurn) : List ℚ :=
  length_consistency_factors user_turns ++ vocab_consistency_factors user_turns ++
    tech_consistency_factors user_turns

/-- ScoringEngine._analyze_consistency, scoring_engine.py lines 238-296. -/
def analyze_consistency (chat_turns : List ChatTurn) : ℚ :=
  if chat_turns.length < 3 then 0.5
  else
    let user_turns := chat_turns.filter fun t => t.role == ChatTurnRole.user
    if user_turns.isEmpty then 0.5
    else if (consistency_factors user_turns).isEmpty then 0.6
    else listAvg (consistency_factors user_turns)

/-- advanced_tech_terms, scoring_engine.py lines 316-321. -/
def advanced_tech_terms : List String :=
  ["architecture", "scalability", "optimization", "algorithm", "complexity",
   "performance", "distributed", "microservices", "api", "database",
   "framework", "library", "protocol", "encryption", "authentication",
   "deployment", "monitoring", "testing", "debugging", "refactoring"]

/-- The literal suffixes of the quantification_patterns regexes of
scoring_engine.py lines 335-339: each pattern is one or more digits followed
by this literal text. -/
def quantification_suffixes : List String :=
  ["%", "x", " users", " requests", " seconds",
   " years", " months", " developers", " million",
   "k", "mb", "gb"]

/-- Total number of regex matches over all quantification patterns for one
response (the loop of scoring_engine.py lines 344-346). -/
def countQuantifications (content : String) : Nat :=
  (quantification_suffixes.map fun suf => countDigitSuffix suf.data content.data).sum

/-- structure_indicators, scoring_engine.py lines 358-362. -/
def structure_indicators : List String :=
  ["first", "then", "next", "finally", "however", "therefore",
   "because", "since", "although", "while", "whereas",
   "problem", "solution", "approach", "strategy", "method"]

/-- The turns considered technical by the depth analyzer, scoring_engine.py
lines 300-303: candidate turns longer than 50 characters. -/
def depth_technical_turns (chat_turns : List ChatTurn) : List ChatTurn :=
  chat_turns.filter fun t =>
    t.role == ChatTurnRole.user && decide (50 < t.content.length)

/-- The depth factors accumulated by scoring_engine.py lines 308-373 for a
non-empty list of technical turns. -/
def depth_factors (technical_turns : List ChatTurn) : List ℚ :=
  let avg_length := (technical_turns.map fun t => (t.content.length : ℚ)).sum /
    technical_turns.length
  let length_score := min (avg_length / 400) 1
  let tech_sophistication_scores : List ℚ := technical_turns.map fun t =>
    let words := pySplit (pyLower t.content)
    let tech_terms_count :=
      (words.filter fun w => advanced_tech_terms.any fun term => strContains w term).length
    min ((tech_terms_count : ℚ) / max ((words.length : ℚ) * 0.1) 1) 1
  let quantification_scores : List ℚ := technical_turns.map fun t =>
    let quantifications := countQuantifications (pyLower t.content)
    let words_count := (pySplit t.content).length
    min ((quantifications : ℚ) / max ((words_count : ℚ) * 0.05) 1) 1
  let structure_scores : List ℚ := technical_turns.map fun t =>
    let words := pySplit (pyLower t.content)
    let structure_words := words.filter fun w => structure_indicators.contains w
    min ((structure_words.length : ℚ) / max ((words.length : ℚ) * 0.05) 1) 1
  [length_score] ++
  (if tech_sophistication_scores.isEmpty then [] else [listAvg tech_sophistication_scores]) ++
  (if quantification_scores.isEmpty then [] else [listAvg quantification_scores]) ++
  (if structure_scores.isEmpty then [] else [listAvg structure_scores])

/-- ScoringEngine._analyze_depth, scoring_engine.py lines 298-386. -/
def analyze_depth (chat_turns : List ChatTurn) : ℚ :=
  let technical_turns := depth_technical_turns chat_turns
  if technical_turns.isEmpty then 0.3
  else
    let factors := depth_factors technical_turns
    let weighted_depth :=
      if 4 ≤ factors.length then
        factors.getD 0 0 * 0.2 + factors.getD 1 0 * 0.4 +
        factors.getD 2 0 * 0.25 + factors.getD 3 0 * 0.15
      else listAvg factors
    min weighted_depth 1

/-- Count of the keywords of a list that occur inside a text, the Python
idiom taking the length of the sublist of keywords contained in the content,
used throughout the motivation analyzer. -/
def countContained (keywords : List String) (content : String) : Nat :=
  (keywords.filter fun w => strContains content w).length

/-- passion_keywords, scoring_engine.py lines 404-407. -/
def passion_keywords : List String :=
  ["passionate", "excited", "love", "enjoy", "fascinated",
   "enthusiastic", "driven", "motivated", "inspired", "thrilled"]

/-- specific_interests, scoring_engine.py lines 411-414. -/
def specific_interests : List String :=
  ["because", "specifically", "particularly", "especially",
   "unique", "innovative", "cutting-edge", "opportunity"]

/-- future_thinking, scoring_engine.py lines 418-421. -/
def future_thinking : List String :=
  ["career", "growth", "future", "goals", "aspire",
   "develop", "learn", "advance", "contribute", "impact"]

/-- company_specific, scoring_engine.py lines 440-443. -/
def company_specific : List String :=
  ["company", "organization", "team", "culture", "values",
   "mission", "vision", "reputation", "known for", "leader in"]

/-- role_specific, scoring_engine.py lines 447-450. -/
def role_specific : List String :=
  ["position", "role", "opportunity", "challenge", "project",
   "work on", "build", "contribute to", "responsible for"]

/-- research_indicators, scoring_engine.py lines 454-457. -/
def research_indicators : List String :=
  ["read about", "learned about", "research", "understand",
   "aware that", "know that", "seen that", "noticed"]

/-- personal_passion, scoring_engine.py lines 472-475. -/
def personal_passion : List String :=
  ["passionate", "dedicated", "committed", "focused",
   "specialized", "experienced", "enjoy", "love"]

/-- One motivation factor per candidate-authored motivation-intent turn,
scoring_engine.py lines 390-433. -/
def motivation_turn_factors (chat_turns : List ChatTurn) : List ℚ :=
  let motivation_turns := chat_turns.filter fun t => intentHas t.intent "motivation"
  (motivation_turns.filter fun t => t.role == ChatTurnRole.user).map fun t =>
    let content := pyLower t.content
    let passion_score := (countContained passion_keywords content : ℚ) / 10
    let specificity_score := (countContained specific_interests content : ℚ) / 8
    let future_score := (countContained future_thinking content : ℚ) / 10
    let depth_score := min ((t.content.length : ℚ) / 200) 1
    min (passion_score * 0.3 + specificity_score * 0.25 +
         future_score * 0.25 + depth_score * 0.2) 1

/-- The factor contributed by the why_us profile field when present and
longer than 20 characters, scoring_engine.py lines 435-465. -/
def why_us_factors (person : ExtendedPerson) : List ℚ :=
  match person.why_us with
  | some wu =>
      if ¬wu.isEmpty ∧ 20 < wu.length then
        let why_us_content := pyLower wu
        let company_score := (countContained company_specific why_us_content : ℚ) / 10
        let role_score := (countContained role_specific why_us_content : ℚ) / 10
        let research_score := (countContained research_indicators why_us_content : ℚ) / 8
        [min (company_score * 0.4 + role_score * 0.3 + research_score * 0.3) 1]
      else []
  | none => []

/-- The factor contributed by the intro profile field when present and
longer than 30 characters, scoring_engine.py lines 467-477. -/
def intro_factors (person : ExtendedPerson) : List ℚ :=
  match person.intro with
  | some it =>
      if ¬it.isEmpty ∧ 30 < it.length then
        [min ((countContained personal_passion (pyLower it) : ℚ) / 8) 1]
      else []
  | none => []

/-- All motivation factors collected by scoring_engine.py lines 395-477, in
accumulation order: one per candidate motivation turn, then the why_us
factor, then the intro factor. -/
def motivation_factors (chat_turns : List ChatTurn) (person : ExtendedPerson) : List ℚ :=
  motivation_turn_factors chat_turns ++ why_us_factors person ++ intro_factors person

/-- ScoringEngine._analyze_motivation, scoring_engine.py lines 388-487. -/
def analyze_motivation (chat_turns : List ChatTurn) (person : ExtendedPerson) : ℚ :=
  let factors := motivation_factors chat_turns person
  if factors.isEmpty then 0.4
  else
    let avg_motivation := listAvg factors
    if 1 < factors.length then min (avg_motivation * 1.1) 1 else avg_motivation

/-- ScoringEngine._analyze_culture_fit, scoring_engine.py lines 489-500. -/
def analyze_culture_fit (chat_turns : List ChatTurn) : ℚ :=
  let values_turns := chat_turns.filter fun t => intentHas t.intent "values"
  if values_turns.isEmpty then 0.6 else 0.8

/-- ScoringEngine._compute_turnover_risk, scoring_engine.py lines 502-518. -/
def compute_turnover_risk (person : ExtendedPerson) (chat_turns : List ChatTurn) : ℚ :=
  let base_risk : ℚ := 0.3
  let scenario_turns := chat_turns.filter fun t =>
    t.role == ChatTurnRole.user && strContains (pyLower t.content) "career"
  if scenario_turns.isEmpty then base_risk else max (base_risk - 0.1) 0.1

/-- ScoringEngine._compute_data_confidence, scoring_engine.py lines 520-537. -/
def compute_data_confidence (st : Settings) (chat_turns : List ChatTurn)
    (person : ExtendedPerson) : ℚ :=
  let chat_completeness := min ((chat_turns.length : ℚ) / ((st.CHAT_MIN_TURNS * 2 : ℕ) : ℚ)) 1
  let resume_quality : ℚ :=
    match person.resume_text with
    | some r => if ¬r.isEmpty ∧ 100 < r.length then 1 else 0.5
    | none => 0.5
  let profile_fields := [person.intro, person.why_us, person.linkedin, person.github]
  let profile_completeness :=
    ((profile_fields.filter truthy).length : ℚ) / (profile_fields.length : ℚ)
  let factors := [chat_completeness, resume_quality, profile_completeness]
  listAvg factors

/-- ScoringEngine._check_credibility, scoring_engine.py lines 539-552: a
trap-intent turn authored by the candidate and longer than 20 characters
sets the flag; nothing else does. -/
def check_credibility (chat_turns : List ChatTurn) : Bool :=
  let trap_turns := chat_turns.filter fun t => t.intent == some ChatTurnIntent.trap
  trap_turns.any fun t => t.role == ChatTurnRole.user && decide (20 < t.content.length)

/-- ScoringEngine._extract_flags, scoring_engine.py lines 554-571. -/
def extract_flags (chat_turns : List ChatTurn) (person : ExtendedPerson) : List String :=
  let user_turns := chat_turns.filter fun t => t.role == ChatTurnRole.user
  let avg_response_length : ℚ :=
    if user_turns.isEmpty then 0
    else (user_turns.map fun t => (t.content.length : ℚ)).sum / user_turns.length
  (if 200 < avg_response_length then ["detailed-responses"] else []) ++
  (if 7 < person.skills_tags.length then ["diverse-skills"] else []) ++
  (if truthy person.github ∧ truthy person.linkedin then ["strong-online-presence"] else [])

/-- ScoringEngine._extract_signals, scoring_engine.py lines 78-136, reduced
to its value computation (the chat turns of the person are passed in; the
database write-back is persistence, not computation). -/
def extract_signals (st : Settings) (person : ExtendedPerson)
    (chat_turns : List ChatTurn) : CandidateSignals :=
  { consistency_score := analyze_consistency chat_turns
    depth_score := analyze_depth chat_turns
    motivation_alignment := analyze_motivation chat_turns person
    culture_alignment := analyze_culture_fit chat_turns
    turnover_risk := compute_turnover_risk person chat_turns
    data_confidence := compute_data_confidence st chat_turns person
    credibility_flag := check_credibility chat_turns
    flags := extract_flags chat_turns person }

/-! ## Role fit (scoring_engine.py lines 138-236) -/

/-- The job part of the comprehensive job profile dictionary read by the
scoring engine (job_profile_service.py lines 80-90). -/
structure JobInfo where
  role_level : String
  technical_focus : List String
deriving DecidableEq, Repr

/-- The personalization_context part of the job profile dictionary
(job_profile_service.py lines 302-311). -/
structure PersonalizationContext where
  key_skills : List String
  mandatory_skills : List String
deriving DecidableEq, Repr

/-- The comprehensive job profile as consumed by ScoringEngine. -/
structure JobProfile where
  job : JobInfo
  personalization_context : PersonalizationContext
deriving DecidableEq, Repr

/-- level_indicators, scoring_engine.py lines 185-190, in insertion order. -/
def level_indicators : List (String × List String) :=
  [("junior", ["junior", "entry", "associate", "trainee", "0-2 years", "1 year"]),
   ("mid-level", ["mid", "intermediate", "2-5 years", "3 years", "4 years"]),
   ("senior", ["senior", "lead", "principal", "5+ years", "6 years", "7 years", "8+ years"]),
   ("management", ["manager", "director", "head", "vp", "team lead"])]

/-- Auxiliary scan for the Python max over dict keys with the score as key
function: the first key with maximal score wins. -/
def argmaxFirstAux : List (String × Nat) → String → Nat → String
  | [], best, _ => best
  | (k, v) :: rest, best, bv =>
      if bv < v then argmaxFirstAux rest k v else argmaxFirstAux rest best bv

/-- Python max(d, key=d.get) over an association list in insertion order. -/
def argmaxFirst : List (String × Nat) → String
  | [] => ""
  | (k, v) :: rest => argmaxFirstAux rest k v

/-- level_hierarchy, scoring_engine.py line 201. -/
def level_hierarchy : List String := ["junior", "mid-level", "senior", "management"]

/-- ScoringEngine._compute_experience_level_match, scoring_engine.py
lines 180-208. -/
def compute_experience_level_match (person : ExtendedPerson)
    (required_level : String) : ℚ :=
  let resume_text := pyLower (person.resume_text.getD "")
  let candidate_level_scores := level_indicators.map fun p =>
    (p.1, (p.2.filter fun keyword => strContains resume_text keyword).length)
  let candidate_level := argmaxFirst candidate_level_scores
  if candidate_level == required_level then 1
  else if ((level_hierarchy.indexOf candidate_level : ℤ) -
           (level_hierarchy.indexOf required_level : ℤ)).natAbs == 1 then 0.7
  else 0.4

/-- focus_skill_mapping, scoring_engine.py lines 219-227. -/
def focus_skill_mapping : List (String × List String) :=
  [("Machine Learning", ["python", "tensorflow", "pytorch", "scikit-learn", "ml", "ai"]),
   ("Web Development", ["javascript", "react", "angular", "vue", "html", "css", "nodejs"]),
   ("Data Science", ["python", "r", "pandas", "numpy", "sql", "tableau", "spark"]),
   ("Devops", ["docker", "kubernetes", "aws", "azure", "jenkins", "terraform"]),
   ("Mobile", ["ios", "android", "react native", "flutter", "swift", "kotlin"]),
   ("Security", ["cybersecurity", "encryption", "penetration testing", "security"]),
   ("Database", ["sql", "nosql", "mongodb", "postgresql", "mysql", "redis"])]

/-- ScoringEngine._compute_technical_alignment, scoring_engine.py
lines 210-236. -/
def compute_technical_alignment (person : ExtendedPerson) (job_info : JobInfo) : ℚ :=
  let technical_focus := job_info.technical_focus
  let candidate_skills := (person.skills_tags.map pyLower).toFinset
  if technical_focus.isEmpty then 0.8
  else
    let alignment_scores : List ℚ := technical_focus.filterMap fun focus_area =>
      let relevant_skills := ((focus_skill_mapping.lookup focus_area).getD []).toFinset
      if relevant_skills.card ≠ 0 then
        some (min (((candidate_skills ∩ relevant_skills).card : ℚ) / 3) 1)
      else none
    if alignment_scores.isEmpty then 0.5 else listAvg alignment_scores

/-- The skill match ratio of scoring_engine.py lines 157-158: size of the
intersection of candidate skills with the required set, divided by the size
of the required set clamped below by one. -/
def skill_match_ratio (candidate_skills required_skills : Finset String) : ℚ :=
  ((candidate_skills ∩ required_skills).card : ℚ) /
    ((max required_skills.card 1 : ℕ) : ℚ)

/-- ScoringEngine._compute_role_fit, scoring_engine.py lines 138-178. -/
def compute_role_fit (person : ExtendedPerson) (signals : CandidateSignals)
    (job_profile : Option JobProfile) : ℚ :=
  match job_profile with
  | none =>
      let skills_count := person.skills_tags.length
      let base_fit := min ((skills_count : ℚ) / 5) 1
      let role_fit := (base_fit + signals.depth_score) / 2
      min role_fit 1
  | some jp =>
      let candidate_skills := person.skills_tags.toFinset
      let mandatory_skills := jp.personalization_context.mandatory_skills.toFinset
      let key_skills := jp.personalization_context.key_skills.toFinset
      let mandatory_match := skill_match_ratio candidate_skills mandatory_skills
      let key_skill_match := skill_match_ratio candidate_skills key_skills
      let experience_match := compute_experience_level_match person jp.job.role_level
      let technical_focus_alignment := compute_technical_alignment person jp.job
      let role_fit :=
        mandatory_match * 0.4 + key_skill_match * 0.25 +
        experience_match * 0.20 + technical_focus_alignment * 0.15
      let final_fit := role_fit * 0.8 + signals.depth_score * 0.2
      min final_fit 1

/-! ## Composite scoring (ScoringEngine.compute_score, lines 24-76) -/

/-- The weighted raw score of scoring_engine.py lines 43-49, with
reliability computed as one minus turnover risk (line 39). -/
def raw_score (w : ScoringWeights) (role_fit : ℚ) (sg : CandidateSignals) : ℚ :=
  role_fit * w.role_fit +
  sg.depth_score * w.capability_depth +
  sg.motivation_alignment * w.motivation_alignment +
  (1 - sg.turnover_risk) * w.reliability_inverse_turnover +
  sg.data_confidence * w.data_confidence

/-- The confidence multiplier of scoring_engine.py line 52. -/
def confidence_multiplier (sg : CandidateSignals) : ℚ :=
  0.5 + 0.5 * sg.data_confidence

/-- The adjusted score of scoring_engine.py lines 51-57: raw score times the
confidence multiplier, then times the fraud penalty when the credibility
flag is set. -/
def adjusted_score (st : Settings) (role_fit : ℚ) (sg : CandidateSignals) : ℚ :=
  let adjusted := raw_score st.SCORING_WEIGHTS role_fit sg * confidence_multiplier sg
  if sg.credibility_flag then adjusted * st.FRAUD_PENALTY_MULTIPLIER else adjusted

/-- ScoringEngine._determine_fit_bucket, scoring_engine.py lines 573-580. -/
def determine_fit_bucket (st : Settings) (score : ℚ) : String :=
  if st.SCORING_THRESHOLDS.top ≤ score then "top"
  else if st.SCORING_THRESHOLDS.borderline ≤ score then "borderline"
  else "low"

/-- ScoringEngine.compute_score, scoring_engine.py lines 24-76, reduced to
its value computation: stored signals are reused when present, otherwise
signals are extracted from the chat turns; role fit is computed from the
person, the signals and the optionally available job profile; the adjusted
score and its bucket form the resulting CandidateScore (the database
write-back is persistence, not computation). -/
def compute_score (st : Settings) (person : ExtendedPerson)
    (chat_turns : List ChatTurn) (job_profile : Option JobProfile)
    (stored_signals : Option CandidateSignals) : CandidateScore :=
  let signals :=
    match stored_signals with
    | some sg => sg
    | none => extract_signals st person chat_turns
  let role_fit := compute_role_fit person signals job_profile
  let fit := adjusted_score st role_fit signals
  { fit_score := fit, fit_bucket := determine_fit_bucket st fit }

/-- The state copied by ScoringEngine.__init__, scoring_engine.py
lines 19-22. -/
structure ScoringEngine where
  weights : ScoringWeights
  thresholds : ScoringThresholds
  fraud_penalty : ℚ
deriving DecidableEq, Repr

/-- ScoringEngine.__init__, scoring_engine.py lines 19-22, together with the
loading of config.py: the pydantic Settings class of config.py declares the
scoring weights, thresholds and fraud penalty as plain defaults with no
validator, and the engine constructor only copies the three values.  No code
path can reject a configuration, which this embedding makes explicit by
always returning ok. -/
def init_scoring_engine (st : Settings) : Except String ScoringEngine :=
  .ok { weights := st.SCORING_WEIGHTS
        thresholds := st.SCORING_THRESHOLDS
        fraud_penalty := st.FRAUD_PENALTY_MULTIPLIER }

/-! ## Concrete inputs and claim-level definitions -/

/-- Signals record for Scenario B of the spec: depth, motivation, reliability
(one minus turnover risk) and data confidence all 0.8, no fraud flag. -/
def scenarioB : CandidateSignals :=
  { consistency_score := 0.8
    depth_score := 0.8
    motivation_alignment := 0.8
    culture_alignment := 0.8
    turnover_risk := 0.2
    data_confidence := 0.8
    credibility_flag := false
    flags := [] }

/-- A candidate profile with no optional data and no skills. -/
def person_empty : ExtendedPerson := ⟨[], none, none, none, none, none⟩

/-- A candidate profile whose only skill tag is python. -/
def person_python : ExtendedPerson := ⟨["python"], none, none, none, none, none⟩

/-- A job profile part with an empty technical focus list. -/
def job_info_no_focus : JobInfo := ⟨"mid-level", []⟩

/-- A candidate answer to a trap question that is longer than 20 characters
and explicitly declares the term unknown. -/
def trap_disavow_turn : ChatTurn :=
  ⟨ChatTurnRole.user, some ChatTurnIntent.trap,
   "I am not familiar with that technology."⟩

/-- A three-turn transcript with exactly one candidate-authored turn. -/
def one_user_transcript : List ChatTurn :=
  [⟨ChatTurnRole.ai, some ChatTurnIntent.skill_probe, "Tell me about your work"⟩,
   ⟨ChatTurnRole.ai, some ChatTurnIntent.motivation, "Why do you want this job"⟩,
   ⟨ChatTurnRole.user, some ChatTurnIntent.skill_probe, "I build things"⟩]

/-- A transcript consisting of two identical candidate-authored
motivation-intent turns. -/
def two_motivation_turns : List ChatTurn :=
  [⟨ChatTurnRole.user, some ChatTurnIntent.motivation, "growth"⟩,
   ⟨ChatTurnRole.user, some ChatTurnIntent.motivation, "growth"⟩]

/-- Modelled from the spec: the credibility rule of the spec requires that
the candidate response "does not explicitly flag the term as
unfamiliar/fabricated"; no such test exists in the source (the loop of
scoring_engine.py lines 546-550 tests only role, intent and length), so the
disavowal test is modelled from the words of the spec as the presence of an
explicit unfamiliarity phrase in the lower-cased response. -/
def flags_term_unfamiliar (content : String) : Bool :=
  ["unfamiliar", "not familiar", "never heard", "fabricated", "made up",
   "not aware"].any fun p => strContains (pyLower content) p

/-- The credibility claim as stated by the spec: the flag is set exactly when
some candidate-authored trap-intent turn is longer than 20 characters and
does not explicitly flag the term as unfamiliar. -/
def credibility_claim : Prop :=
  ∀ turns : List ChatTurn,
    check_credibility turns = true ↔
      ∃ t ∈ turns, t.intent = some ChatTurnIntent.trap ∧ t.role = ChatTurnRole.user ∧
        20 < t.content.length ∧ flags_term_unfamiliar t.content = false

/-- Modelled from the spec: the motivation analyzer as described by the
claim, producing one sub-score per existing source — the motivation-intent
transcript turns collectively (averaged), the why_us field, the intro
field — and boosting only when more than one source exists. -/
def analyze_motivation_spec (chat_turns : List ChatTurn) (person : ExtendedPerson) : ℚ :=
  let turn_source : List ℚ :=
    let tf := motivation_turn_factors chat_turns
    if tf.isEmpty then [] else [listAvg tf]
  let sources := turn_source ++ why_us_factors person ++ intro_factors person
  if sources.isEmpty then 0.4
  else
    let avg := listAvg sources
    if 1 < sources.length then min (avg * 1.1) 1 else avg

/-- The motivation claim as stated: the source computation agrees with the
one-sub-score-per-source description. -/
def motivation_claim : Prop :=
  ∀ (turns : List ChatTurn) (person : ExtendedPerson),
    analyze_motivation turns person = analyze_motivation_spec turns person

/-- The technical-focus alignment rule as amended: 0.8 for an empty focus
list; otherwise the average of the per-focus-area overlap scores of the
areas that have an entry in the fixed mapping, 0.5 when no area has an
entry. -/
def technical_alignment_amended (person : ExtendedPerson) (j : JobInfo) : ℚ :=
  if j.technical_focus.isEmpty then 0.8
  else
    let scores := j.technical_focus.filterMap fun a =>
      (focus_skill_mapping.lookup a).map fun mapped =>
        min ((((person.skills_tags.map pyLower).toFinset ∩ mapped.toFinset).card : ℚ) / 3) 1
    if scores.isEmpty then 0.5 else listAvg scores

/-- The sum of the five configured scoring weights. -/
def weights_total (w : ScoringWeights) : ℚ :=
  w.role_fit + w.capability_depth + w.motivation_alignment +
    w.reliability_inverse_turnover + w.data_confidence

/-- A well-formed scoring configuration in the sense of the spec: weights
summing to approximately one and ordered thresholds. -/
def valid_scoring_config (st : Settings) : Prop :=
  |weights_total st.SCORING_WEIGHTS - 1| ≤ 1 / 100 ∧
    st.SCORING_THRESHOLDS.borderline < st.SCORING_THRESHOLDS.top

/-- The startup-validation claim as stated: initializing the scoring engine
with an invalid configuration fails. -/
def startup_validation_claim : Prop :=
  ∀ st : Settings, ¬valid_scoring_config st →
    ∃ msg, init_scoring_engine st = .error msg

/-- A configuration whose weights sum to two and whose thresholds are
inverted. -/
def bad_settings : Settings :=
  { SCORING_WEIGHTS :=
      { role_fit := 0.4
        capability_depth := 0.4
        motivation_alignment := 0.4
        reliability_inverse_turnover := 0.4
        data_confidence := 0.4 }
    SCORING_THRESHOLDS := { top := 0.3, borderline := 0.5 }
    FRAUD_PENALTY_MULTIPLIER := 0.25
    CHAT_MIN_TURNS := 5 }

/-- Signals maximal everywhere relevant: full sub-scores, zero turnover
risk, full confidence, no flag. -/
def perfect_signals : CandidateSignals := ⟨1, 1, 1, 1, 0, 1, false, []⟩

/-! ## Bound lemmas: every analyzer output lies in the unit interval -/

/-- Membership of the closed unit interval. -/
def inUnit (x : ℚ) : Prop := 0 ≤ x ∧ x ≤ 1

lemma listSum_nonneg (l : List ℚ) (h : ∀ x ∈ l, 0 ≤ x) : 0 ≤ l.sum := by
  induction l with
  | nil => simp
  | cons a t ih =>
      simp only [List.sum_cons]
      have ha := h a (List.mem_cons_self a t)
      have ht := ih fun x hx => h x (List.mem_cons_of_mem _ hx)
      linarith

lemma listSum_le_length (l : List ℚ) (h : ∀ x ∈ l, x ≤ 1) : l.sum ≤ l.length := by
  induction l with
  | nil => simp
  | cons a t ih =>
      simp only [List.sum_cons, List.length_cons]
      have ha := h a (List.mem_cons_self a t)
      have ht := ih fun x hx => h x (List.mem_cons_of_mem _ hx)
      push_cast
      linarith

lemma listAvg_nonneg (l : List ℚ) (h : ∀ x ∈ l, 0 ≤ x) : 0 ≤ listAvg l := by
  unfold listAvg
  exact div_nonneg (listSum_nonneg l h) (by positivity)

lemma listAvg_le_one (l : List ℚ) (h : ∀ x ∈ l, x ≤ 1) : listAvg l ≤ 1 := by
  unfold listAvg
  cases l with
  | nil => simp
  | cons a t =>
      have hlen : (0 : ℚ) < ((a :: t).length : ℚ) := by
        exact_mod_cast Nat.succ_pos t.length
      rw [div_le_one hlen]
      exact listSum_le_length _ h

lemma inUnit_listAvg (l : List ℚ) (h : ∀ x ∈ l, inUnit x) : inUnit (listAvg l) :=
  ⟨listAvg_nonneg l fun x hx => (h x hx).1, listAvg_le_one l fun x hx => (h x hx).2⟩

lemma inUnit_min_one {x : ℚ} (hx : 0 ≤ x) : inUnit (min x 1) :=
  ⟨le_min hx zero_le_one, min_le_right x 1⟩

lemma inUnit_max_zero {x : ℚ} (hx : x ≤ 1) : inUnit (max 0 x) :=
  ⟨le_max_left 0 x, max_le zero_le_one hx⟩

lemma variance_nonneg (l : List ℚ) (a : ℚ) :
    0 ≤ (l.map fun d => ((d - a) ^ 2 : ℚ)).sum / (l.length : ℚ) := by
  apply div_nonneg
  · apply listSum_nonneg
    intro x hx
    rw [List.mem_map] at hx
    obtain ⟨d, _, rfl⟩ := hx
    positivity
  · positivity

lemma one_sub_scaled_variance_le_one (l : List ℚ) (a c : ℚ) (hc : 0 ≤ c) :
    1 - ((l.map fun d => ((d - a) ^ 2 : ℚ)).sum / (l.length : ℚ)) * c ≤ 1 := by
  have h := variance_nonneg l a
  nlinarith

lemma one_sub_div_sq_le_one (l : List ℚ) (a b : ℚ) :
    1 - ((l.map fun d => ((d - a) ^ 2 : ℚ)).sum / (l.length : ℚ)) / b ^ 2 ≤ 1 := by
  have h := variance_nonneg l a
  have h2 : 0 ≤ ((l.map fun d => ((d - a) ^ 2 : ℚ)).sum / (l.length : ℚ)) / b ^ 2 :=
    div_nonneg h (sq_nonneg b)
  linarith

lemma length_consistency_factors_inUnit (ut : List ChatTurn) :
    ∀ x ∈ length_consistency_factors ut, inUnit x := by
  intro x hx
  simp only [length_consistency_factors] at hx
  split at hx
  · simp only [List.mem_singleton] at hx
    subst hx
    apply inUnit_max_zero
    split
    · exact one_sub_div_sq_le_one _ _ _
    · norm_num
  · simp at hx

lemma vocab_consistency_factors_inUnit (ut : List ChatTurn) :
    ∀ x ∈ vocab_consistency_factors ut, inUnit x := by
  intro x hx
  simp only [vocab_consistency_factors] at hx
  split at hx
  · split at hx
    · simp at hx
    · simp only [List.mem_singleton] at hx
      subst hx
      apply inUnit_listAvg
      intro y hy
      rw [List.mem_filterMap] at hy
      obtain ⟨p, _, hpy⟩ := hy
      split at hpy
      · rename_i hcond
        obtain rfl := Option.some.inj hpy
        constructor
        · positivity
        · have h1 : p.1.Nonempty := Finset.card_ne_zero.mp hcond.1
          have hpos : 0 < (p.1 ∪ p.2).card :=
            Finset.card_pos.mpr (h1.mono Finset.subset_union_left)
          rw [div_le_one (by exact_mod_cast hpos)]
          exact_mod_cast Finset.card_le_card Finset.inter_subset_union
      · exact absurd hpy (by simp)
  · simp at hx

lemma tech_consistency_factors_inUnit (ut : List ChatTurn) :
    ∀ x ∈ tech_consistency_factors ut, inUnit x := by
  intro x hx
  simp only [tech_consistency_factors] at hx
  split at hx
  · simp only [List.mem_singleton] at hx
    subst hx
    exact inUnit_max_zero (one_sub_scaled_variance_le_one _ _ _ (by norm_num))
  · simp at hx

lemma analyze_consistency_inUnit (turns : List ChatTurn) :
    inUnit (analyze_consistency turns) := by
  simp only [analyze_consistency]
  split
  · exact ⟨by norm_num, by norm_num⟩
  · split
    · exact ⟨by norm_num, by norm_num⟩
    · split
      · exact ⟨by norm_num, by norm_num⟩
      · apply inUnit_listAvg
        intro x hx
        unfold consistency_factors at hx
        rcases List.mem_append.mp hx with h | h
        · rcases List.mem_append.mp h with h2 | h2
          · exact length_consistency_factors_inUnit _ _ h2
          · exact vocab_consistency_factors_inUnit _ _ h2
        · exact tech_consistency_factors_inUnit _ _ h

lemma getD_nonneg (l : List ℚ) (h : ∀ x ∈ l, 0 ≤ x) (i : ℕ) : 0 ≤ l.getD i 0 := by
  induction l generalizing i with
  | nil => simp [List.getD]
  | cons a t ih =>
      cases i with
      | zero => simpa using h a (List.mem_cons_self a t)
      | succ n =>
          simp only [List.getD_cons_succ]
          exact ih (fun x hx => h x (List.mem_cons_of_mem _ hx)) n

lemma depth_factors_nonneg (tt : List ChatTurn) : ∀ x ∈ depth_factors tt, 0 ≤ x := by
  intro x hx
  simp only [depth_factors] at hx
  rcases List.mem_append.mp hx with h | h4
  · rcases List.mem_append.mp h with h | h3
    · rcases List.mem_append.mp h with h1 | h2
      · simp only [List.mem_singleton] at h1
        subst h1
        have hs : 0 ≤ (tt.map fun t => (t.content.length : ℚ)).sum := by
          apply listSum_nonneg
          intro y hy
          rw [List.mem_map] at hy
          obtain ⟨t, _, rfl⟩ := hy
          positivity
        have : 0 ≤ (tt.map fun t => (t.content.length : ℚ)).sum / (tt.length : ℚ) / 400 := by
          positivity
        exact le_min this zero_le_one
      · split at h2
        · simp at h2
        · simp only [List.mem_singleton] at h2
          subst h2
          apply listAvg_nonneg
          intro y hy
          rw [List.mem_map] at hy
          obtain ⟨t, _, rfl⟩ := hy
          have hden : (0:ℚ) < max ((((pySplit (pyLower t.content)).length : ℚ)) * 0.1) 1 :=
            lt_of_lt_of_le one_pos (le_max_right _ _)
          positivity
    · split at h3
      · simp at h3
      · simp only [List.mem_singleton] at h3
        subst h3
        apply listAvg_nonneg
        intro y hy
        rw [List.mem_map] at hy
        obtain ⟨t, _, rfl⟩ := hy
        have hden : (0:ℚ) < max ((((pySplit t.content).length : ℚ)) * 0.05) 1 :=
          lt_of_lt_of_le one_pos (le_max_right _ _)
        positivity
  · split at h4
    · simp at h4
    · simp only [List.mem_singleton] at h4
      subst h4
      apply listAvg_nonneg
      intro y hy
      rw [List.mem_map] at hy
      obtain ⟨t, _, rfl⟩ := hy
      have hden : (0:ℚ) < max ((((pySplit (pyLower t.content)).length : ℚ)) * 0.05) 1 :=
        lt_of_lt_of_le one_pos (le_max_right _ _)
      positivity

lemma analyze_depth_inUnit (turns : List ChatTurn) : inUnit (analyze_depth turns) := by
  simp only [analyze_depth]
  split
  · exact ⟨by norm_num, by norm_num⟩
  · apply inUnit_min_one
    have h := depth_factors_nonneg (depth_technical_turns turns)
    split
    · have g0 := getD_nonneg _ h 0
      have g1 := getD_nonneg _ h 1
      have g2 := getD_nonneg _ h 2
      have g3 := getD_nonneg _ h 3
      have t0 : 0 ≤ (depth_factors (depth_technical_turns turns)).getD 0 0 * 0.2 :=
        mul_nonneg g0 (by norm_num)
      have t1 : 0 ≤ (depth_factors (depth_technical_turns turns)).getD 1 0 * 0.4 :=
        mul_nonneg g1 (by norm_num)
      have t2 : 0 ≤ (depth_factors (depth_technical_turns turns)).getD 2 0 * 0.25 :=
        mul_nonneg g2 (by norm_num)
      have t3 : 0 ≤ (depth_factors (depth_technical_turns turns)).getD 3 0 * 0.15 :=
        mul_nonneg g3 (by norm_num)
      linarith
    · exact listAvg_nonneg _ h

lemma motivation_turn_factors_inUnit (turns : List ChatTurn) :
    ∀ x ∈ motivation_turn_factors turns, inUnit x := by
  intro x hx
  simp only [motivation_turn_factors] at hx
  rw [List.mem_map] at hx
  obtain ⟨t, _, rfl⟩ := hx
  apply inUnit_min_one
  have hd : 0 ≤ min ((t.content.length : ℚ) / 200) 1 :=
    le_min (by positivity) zero_le_one
  positivity

lemma why_us_factors_inUnit (person : ExtendedPerson) :
    ∀ x ∈ why_us_factors person, inUnit x := by
  intro x hx
  unfold why_us_factors at hx
  cases hw : person.why_us with
  | none => simp only [hw] at hx; simp at hx
  | some wu =>
    simp only [hw] at hx
    split at hx
    · simp only [List.mem_singleton] at hx
      subst hx
      apply inUnit_min_one
      positivity
    · simp at hx

lemma intro_factors_inUnit (person : ExtendedPerson) :
    ∀ x ∈ intro_factors person, inUnit x := by
  intro x hx
  unfold intro_factors at hx
  cases hw : person.intro with
  | none => simp only [hw] at hx; simp at hx
  | some it =>
    simp only [hw] at hx
    split at hx
    · simp only [List.mem_singleton] at hx
      subst hx
      apply inUnit_min_one
      positivity
    · simp at hx

lemma motivation_factors_inUnit (turns : List ChatTurn) (person : ExtendedPerson) :
    ∀ x ∈ motivation_factors turns person, inUnit x := by
  intro x hx
  unfold motivation_factors at hx
  rcases List.mem_append.mp hx with h | h
  · rcases List.mem_append.mp h with h2 | h2
    · exact motivation_turn_factors_inUnit _ _ h2
    · exact why_us_factors_inUnit _ _ h2
  · exact intro_factors_inUnit _ _ h

lemma analyze_motivation_inUnit (turns : List ChatTurn) (person : ExtendedPerson) :
    inUnit (analyze_motivation turns person) := by
  simp only [analyze_motivation]
  split
  · exact ⟨by norm_num, by norm_num⟩
  · split
    · apply inUnit_min_one
      have h0 := listAvg_nonneg _ fun x hx => (motivation_factors_inUnit turns person x hx).1
      nlinarith
    · exact inUnit_listAvg _ (motivation_factors_inUnit turns person)

lemma analyze_culture_fit_inUnit (turns : List ChatTurn) :
    inUnit (analyze_culture_fit turns) := by
  simp only [analyze_culture_fit]
  split
  · exact ⟨by norm_num, by norm_num⟩
  · exact ⟨by norm_num, by norm_num⟩

lemma compute_turnover_risk_inUnit (person : ExtendedPerson) (turns : List ChatTurn) :
    inUnit (compute_turnover_risk person turns) := by
  simp only [compute_turnover_risk]
  split
  · exact ⟨by norm_num, by norm_num⟩
  · constructor
    · exact le_trans (by norm_num) (le_max_right _ _)
    · apply max_le <;> norm_num

lemma compute_data_confidence_inUnit (st : Settings) (turns : List ChatTurn)
    (person : ExtendedPerson) : inUnit (compute_data_confidence st turns person) := by
  simp only [compute_data_confidence]
  apply inUnit_listAvg
  intro x hx
  simp only [List.mem_cons, List.not_mem_nil, or_false] at hx
  rcases hx with rfl | rfl | rfl
  · exact inUnit_min_one (by positivity)
  · rcases person.resume_text with _ | r
    · exact ⟨by norm_num, by norm_num⟩
    · simp only
      split
      · exact ⟨by norm_num, by norm_num⟩
      · exact ⟨by norm_num, by norm_num⟩
  · constructor
    · positivity
    · rw [div_le_one (by norm_num)]
      have hle := List.length_filter_le truthy
        [person.intro, person.why_us, person.linkedin, person.github]
      have : ((List.filter truthy
          [person.intro, person.why_us, person.linkedin, person.github]).length : ℚ) ≤ 4 := by
        exact_mod_cast hle
      simpa using this

lemma skill_match_ratio_inUnit (cs rs : Finset String) : inUnit (skill_match_ratio cs rs) := by
  unfold skill_match_ratio
  have hden : (0 : ℚ) < ((max rs.card 1 : ℕ) : ℚ) := by
    have : 0 < max rs.card 1 := lt_of_lt_of_le Nat.zero_lt_one (le_max_right _ _)
    exact_mod_cast this
  constructor
  · positivity
  · rw [div_le_one hden]
    have h1 : (cs ∩ rs).card ≤ rs.card := Finset.card_le_card Finset.inter_subset_right
    have h2 : rs.card ≤ max rs.card 1 := le_max_left _ _
    exact_mod_cast le_trans h1 h2

lemma compute_experience_level_match_inUnit (person : ExtendedPerson) (lvl : String) :
    inUnit (compute_experience_level_match person lvl) := by
  simp only [compute_experience_level_match]
  split
  · exact ⟨by norm_num, by norm_num⟩
  · split
    · exact ⟨by norm_num, by norm_num⟩
    · exact ⟨by norm_num, by norm_num⟩

lemma compute_technical_alignment_inUnit (person : ExtendedPerson) (j : JobInfo) :
    inUnit (compute_technical_alignment person j) := by
  simp only [compute_technical_alignment]
  split
  · exact ⟨by norm_num, by norm_num⟩
  · split
    · exact ⟨by norm_num, by norm_num⟩
    · apply inUnit_listAvg
      intro x hx
      rw [List.mem_filterMap] at hx
      obtain ⟨a, _, ha⟩ := hx
      split at ha
      · obtain rfl := Option.some.inj ha
        exact inUnit_min_one (by positivity)
      · exact absurd ha (by simp)

lemma compute_role_fit_inUnit (person : ExtendedPerson) (sg : CandidateSignals)
    (jp : Option JobProfile) (hd : 0 ≤ sg.depth_score) :
    inUnit (compute_role_fit person sg jp) := by
  cases jp with
  | none =>
      simp only [compute_role_fit]
      apply inUnit_min_one
      have h1 : 0 ≤ min ((person.skills_tags.length : ℚ) / 5) 1 :=
        le_min (by positivity) zero_le_one
      linarith
  | some jp =>
      simp only [compute_role_fit]
      apply inUnit_min_one
      obtain ⟨h10, h11⟩ := skill_match_ratio_inUnit person.skills_tags.toFinset
        jp.personalization_context.mandatory_skills.toFinset
      obtain ⟨h20, h21⟩ := skill_match_ratio_inUnit person.skills_tags.toFinset
        jp.personalization_context.key_skills.toFinset
      obtain ⟨h30, h31⟩ := compute_experience_level_match_inUnit person jp.job.role_level
      obtain ⟨h40, h41⟩ := compute_technical_alignment_inUnit person jp.job
      nlinarith

lemma confidence_multiplier_bounds (sg : CandidateSignals)
    (hc : inUnit sg.data_confidence) :
    0 ≤ confidence_multiplier sg ∧ confidence_multiplier sg ≤ 1 := by
  obtain ⟨hc0, hc1⟩ := hc
  simp only [confidence_multiplier]
  constructor <;> nlinarith

lemma raw_score_default_inUnit (rf : ℚ) (sg : CandidateSignals)
    (hrf : inUnit rf) (hd : inUnit sg.depth_score) (hm : inUnit sg.motivation_alignment)
    (ht : inUnit sg.turnover_risk) (hc : inUnit sg.data_confidence) :
    inUnit (raw_score defaultSettings.SCORING_WEIGHTS rf sg) := by
  obtain ⟨hrf0, hrf1⟩ := hrf
  obtain ⟨hd0, hd1⟩ := hd
  obtain ⟨hm0, hm1⟩ := hm
  obtain ⟨ht0, ht1⟩ := ht
  obtain ⟨hc0, hc1⟩ := hc
  simp only [raw_score, defaultSettings]
  constructor <;> nlinarith

lemma adjusted_score_default_inUnit (rf : ℚ) (sg : CandidateSignals)
    (hrf : inUnit rf) (hd : inUnit sg.depth_score) (hm : inUnit sg.motivation_alignment)
    (ht : inUnit sg.turnover_risk) (hc : inUnit sg.data_confidence) :
    inUnit (adjusted_score defaultSettings rf sg) := by
  obtain ⟨hraw0, hraw1⟩ := raw_score_default_inUnit rf sg hrf hd hm ht hc
  obtain ⟨hcm0, hcm1⟩ := confidence_multiplier_bounds sg hc
  simp only [adjusted_score, defaultSettings] at *
  split
  · constructor
    · have := mul_nonneg (mul_nonneg hraw0 hcm0) (by norm_num : (0:ℚ) ≤ 0.25)
      linarith
    · nlinarith
  · exact ⟨mul_nonneg hraw0 hcm0, by nlinarith⟩

end Sajilo

/-- C2: for every profile, transcript and job profile, all six sub-scores
produced by signal extraction and the final fit score of compute_score with
the configuration of config.py lie in the closed interval from zero to
one. -/
theorem C2_all_scores_unit_interval (person : Sajilo.ExtendedPerson)
    (chat_turns : List Sajilo.ChatTurn) (job_profile : Option Sajilo.JobProfile) :
    Sajilo.inUnit (Sajilo.extract_signals Sajilo.defaultSettings person chat_turns).consistency_score ∧
    Sajilo.inUnit (Sajilo.extract_signals Sajilo.defaultSettings person chat_turns).depth_score ∧
    Sajilo.inUnit (Sajilo.extract_signals Sajilo.defaultSettings person chat_turns).motivation_alignment ∧
    Sajilo.inUnit (Sajilo.extract_signals Sajilo.defaultSettings person chat_turns).culture_alignment ∧
    Sajilo.inUnit (Sajilo.extract_signals Sajilo.defaultSettings person chat_turns).turnover_risk ∧
    Sajilo.inUnit (Sajilo.extract_signals Sajilo.defaultSettings person chat_turns).data_confidence ∧
    Sajilo.inUnit (Sajilo.compute_score Sajilo.defaultSettings person chat_turns
      job_profile none).fit_score := by
  refine ⟨?_, ?_, ?_, ?_, ?_, ?_, ?_⟩
  · exact Sajilo.analyze_consistency_inUnit chat_turns
  · exact Sajilo.analyze_depth_inUnit chat_turns
  · exact Sajilo.analyze_motivation_inUnit chat_turns person
  · exact Sajilo.analyze_culture_fit_inUnit chat_turns
  · exact Sajilo.compute_turnover_risk_inUnit person chat_turns
  · exact Sajilo.compute_data_confidence_inUnit Sajilo.defaultSettings chat_turns person
  · exact Sajilo.adjusted_score_default_inUnit _ _
      (Sajilo.compute_role_fit_inUnit person _ job_profile
        (Sajilo.analyze_depth_inUnit chat_turns).1)
      (Sajilo.analyze_depth_inUnit chat_turns)
      (Sajilo.analyze_motivation_inUnit chat_turns person)
      (Sajilo.compute_turnover_risk_inUnit person chat_turns)
      (Sajilo.compute_data_confidence_inUnit Sajilo.defaultSettings chat_turns person)

/-- C1: with the default weights of config.py, a candidate whose role fit,
depth, motivation, reliability (one minus turnover risk) and data confidence
all equal 0.8 and no credibility flag gets raw score 0.8, confidence
multiplier 0.9, fit score 0.72, and with the default thresholds the bucket
is borderline. -/
theorem C1_scenarioB_compute_score :
    Sajilo.defaultSettings.SCORING_WEIGHTS =
      { role_fit := 0.35, capability_depth := 0.20, motivation_alignment := 0.15,
        reliability_inverse_turnover := 0.15, data_confidence := 0.15 } ∧
    Sajilo.defaultSettings.SCORING_THRESHOLDS = { top := 0.75, borderline := 0.50 } ∧
    Sajilo.raw_score Sajilo.defaultSettings.SCORING_WEIGHTS 0.8 Sajilo.scenarioB = 0.8 ∧
    Sajilo.confidence_multiplier Sajilo.scenarioB = 0.9 ∧
    Sajilo.adjusted_score Sajilo.defaultSettings 0.8 Sajilo.scenarioB = 0.72 ∧
    Sajilo.determine_fit_bucket Sajilo.defaultSettings
      (Sajilo.adjusted_score Sajilo.defaultSettings 0.8 Sajilo.scenarioB) = "borderline" := by
  refine ⟨rfl, rfl, ?_, ?_, ?_, ?_⟩ <;>
    norm_num [Sajilo.raw_score, Sajilo.confidence_multiplier, Sajilo.adjusted_score,
      Sajilo.determine_fit_bucket, Sajilo.defaultSettings, Sajilo.scenarioB]


/-- C3: for every configuration, fixed role fit and fixed signals, setting
only the credibility flag multiplies the adjusted score by the configured
fraud penalty multiplier; when the penalty is below one and the unflagged
score positive, the flagged score is strictly lower; in the Scenario B
configuration with penalty 0.25 the flagged fit score is 0.18 and the bucket
is low. -/
theorem C3_fraud_penalty_monotonicity :
    (∀ (st : Sajilo.Settings) (rf : ℚ) (sg : Sajilo.CandidateSignals),
      Sajilo.adjusted_score st rf { sg with credibility_flag := true } =
        Sajilo.adjusted_score st rf { sg with credibility_flag := false } *
          st.FRAUD_PENALTY_MULTIPLIER) ∧
    (∀ (st : Sajilo.Settings) (rf : ℚ) (sg : Sajilo.CandidateSignals),
      0 < Sajilo.adjusted_score st rf { sg with credibility_flag := false } →
      st.FRAUD_PENALTY_MULTIPLIER < 1 →
      Sajilo.adjusted_score st rf { sg with credibility_flag := true } <
        Sajilo.adjusted_score st rf { sg with credibility_flag := false }) ∧
    Sajilo.adjusted_score Sajilo.defaultSettings 0.8
      { Sajilo.scenarioB with credibility_flag := true } = 0.18 ∧
    Sajilo.determine_fit_bucket Sajilo.defaultSettings
      (Sajilo.adjusted_score Sajilo.defaultSettings 0.8
        { Sajilo.scenarioB with credibility_flag := true }) = "low" := by
  have key : ∀ (st : Sajilo.Settings) (rf : ℚ) (sg : Sajilo.CandidateSignals),
      Sajilo.adjusted_score st rf { sg with credibility_flag := true } =
        Sajilo.adjusted_score st rf { sg with credibility_flag := false } *
          st.FRAUD_PENALTY_MULTIPLIER := by
    intro st rf sg
    simp [Sajilo.adjusted_score, Sajilo.raw_score, Sajilo.confidence_multiplier]
  refine ⟨key, ?_, ?_, ?_⟩
  · intro st rf sg h hp
    rw [key]
    nlinarith
  · norm_num [Sajilo.adjusted_score, Sajilo.raw_score, Sajilo.confidence_multiplier,
      Sajilo.defaultSettings, Sajilo.scenarioB]
  · norm_num [Sajilo.determine_fit_bucket, Sajilo.adjusted_score, Sajilo.raw_score,
      Sajilo.confidence_multiplier, Sajilo.defaultSettings, Sajilo.scenarioB]

/-- Witness for C3 at the Scenario B signals. -/
theorem C3_witness :
    0 < Sajilo.adjusted_score Sajilo.defaultSettings 0.8
        { Sajilo.scenarioB with credibility_flag := false } ∧
    Sajilo.defaultSettings.FRAUD_PENALTY_MULTIPLIER < 1 ∧
    Sajilo.adjusted_score Sajilo.defaultSettings 0.8
        { Sajilo.scenarioB with credibility_flag := true } <
      Sajilo.adjusted_score Sajilo.defaultSettings 0.8
        { Sajilo.scenarioB with credibility_flag := false } := by
  have h1 : (0:ℚ) < Sajilo.adjusted_score Sajilo.defaultSettings 0.8
      { Sajilo.scenarioB with credibility_flag := false } := by
    norm_num [Sajilo.adjusted_score, Sajilo.raw_score, Sajilo.confidence_multiplier,
      Sajilo.defaultSettings, Sajilo.scenarioB]
  have h2 : Sajilo.defaultSettings.FRAUD_PENALTY_MULTIPLIER < 1 := by
    norm_num [Sajilo.defaultSettings]
  exact ⟨h1, h2, C3_fraud_penalty_monotonicity.2.1 _ _ _ h1 h2⟩

/-- C4 counterexample: the source flag fires on any long candidate trap
answer, even one that explicitly declares the term unknown, so the claimed
equivalence is false. -/
theorem C4_counterexample : ¬Sajilo.credibility_claim := by
  intro h
  have h2 := (h [Sajilo.trap_disavow_turn]).mp (by decide)
  obtain ⟨t, ht, _, _, _, hf⟩ := h2
  rw [List.mem_singleton] at ht
  subst ht
  have hTrue : Sajilo.flags_term_unfamiliar Sajilo.trap_disavow_turn.content = true := by
    decide
  rw [hTrue] at hf
  exact Bool.noConfusion hf

/-- C4 as amended: the credibility flag is set exactly when some
candidate-authored trap-intent turn is longer than 20 characters, with no
test of whether the response disavows the term; in particular a transcript
without trap turns never sets the flag. -/
theorem C4_trap_length_rule (turns : List Sajilo.ChatTurn) :
    (Sajilo.check_credibility turns = true ↔
      ∃ t ∈ turns, t.intent = some Sajilo.ChatTurnIntent.trap ∧
        t.role = Sajilo.ChatTurnRole.user ∧ 20 < t.content.length) ∧
    ((∀ t ∈ turns, t.intent ≠ some Sajilo.ChatTurnIntent.trap) →
      Sajilo.check_credibility turns = false) := by
  constructor
  · simp only [Sajilo.check_credibility, List.any_eq_true, List.mem_filter,
      Bool.and_eq_true, beq_iff_eq, decide_eq_true_eq]
    constructor
    · rintro ⟨t, ⟨h1, h2⟩, h3, h4⟩
      exact ⟨t, h1, h2, h3, h4⟩
    · rintro ⟨t, h1, h2, h3, h4⟩
      exact ⟨t, ⟨h1, h2⟩, h3, h4⟩
  · intro h
    have hnil : (turns.filter fun t =>
        t.intent == some Sajilo.ChatTurnIntent.trap) = [] := by
      rw [List.filter_eq_nil_iff]
      intro a ha
      simpa using h a ha
    simp [Sajilo.check_credibility, hnil]

/-- Witness for C4 at the empty transcript and at a single long trap
answer. -/
theorem C4_witness :
    Sajilo.check_credibility [] = false ∧
    Sajilo.check_credibility [Sajilo.trap_disavow_turn] = true := by
  constructor
  · exact (C4_trap_length_rule []).2 (by simp)
  · exact (C4_trap_length_rule [Sajilo.trap_disavow_turn]).1.mpr
      ⟨Sajilo.trap_disavow_turn, List.mem_singleton_self _, rfl, rfl, by decide⟩

/-- C5 counterexample: with no mandatory skills defined the source ratio is
zero, not full credit. -/
theorem C5_counterexample :
    Sajilo.skill_match_ratio {"python"} (∅ : Finset String) = 0 ∧
    Sajilo.skill_match_ratio {"python"} (∅ : Finset String) ≠ 1 := by
  constructor
  · simp [Sajilo.skill_match_ratio]
  · simp [Sajilo.skill_match_ratio]

/-- C5 as amended: the mandatory-skill factor is the intersection size over
the mandatory set size whenever mandatory skills are defined — one half in
Scenario A — and it is zero, not full credit, when no mandatory skills are
defined. -/
theorem C5_mandatory_match :
    (∀ cs ms : Finset String, ms.Nonempty →
      Sajilo.skill_match_ratio cs ms = ((cs ∩ ms).card : ℚ) / (ms.card : ℚ)) ∧
    (∀ cs : Finset String, Sajilo.skill_match_ratio cs (∅ : Finset String) = 0) ∧
    Sajilo.skill_match_ratio {"python"} ({"python", "aws"} : Finset String) = 1 / 2 := by
  refine ⟨?_, ?_, ?_⟩
  · intro cs ms h
    unfold Sajilo.skill_match_ratio
    rw [Nat.max_eq_left (Finset.card_pos.mpr h)]
  · intro cs
    simp [Sajilo.skill_match_ratio]
  · simp +decide [Sajilo.skill_match_ratio]
    try norm_num

/-- Witness for C5 at the Scenario A sets and at the empty mandatory set. -/
theorem C5_witness :
    Sajilo.skill_match_ratio {"python"} ({"python", "aws"} : Finset String) =
      ((({"python"} : Finset String) ∩ {"python", "aws"}).card : ℚ) /
        ((({"python", "aws"} : Finset String)).card : ℚ) ∧
    Sajilo.skill_match_ratio {"python"} (∅ : Finset String) = 0 :=
  ⟨C5_mandatory_match.1 {"python"} {"python", "aws"} (Finset.insert_nonempty _ _),
   C5_mandatory_match.2.1 {"python"}⟩

/-- C7 counterexample: a three-turn transcript with a single
candidate-authored turn has fewer than three candidate turns yet the
analyzer returns 0.6, not 0.5, because the source guard counts turns of
every role. -/
theorem C7_counterexample :
    (Sajilo.one_user_transcript.filter fun t =>
        t.role == Sajilo.ChatTurnRole.user).length < 3 ∧
    Sajilo.analyze_consistency Sajilo.one_user_transcript = 0.6 ∧
    Sajilo.analyze_consistency Sajilo.one_user_transcript ≠ 0.5 := by
  have hval : Sajilo.analyze_consistency Sajilo.one_user_transcript = 0.6 := by
    simp +decide [Sajilo.analyze_consistency, Sajilo.consistency_factors,
      Sajilo.length_consistency_factors, Sajilo.vocab_consistency_factors,
      Sajilo.tech_consistency_factors, Sajilo.one_user_transcript, Sajilo.pySplit,
      Sajilo.pyLower, Sajilo.wordsAux, Sajilo.listPairs, Sajilo.listAvg,
      Sajilo.technical_keywords, Sajilo.strContains, Sajilo.containsSub]
    try norm_num
  exact ⟨by decide, hval, by rw [hval]; norm_num⟩

/-- C7 as amended: the neutral default 0.5 is returned whenever the whole
transcript, counting turns of every role, has fewer than three turns. -/
theorem C7_short_transcript_default (turns : List Sajilo.ChatTurn)
    (h : turns.length < 3) : Sajilo.analyze_consistency turns = 0.5 := by
  simp [Sajilo.analyze_consistency, h]

/-- Witness for C7 at the empty transcript. -/
theorem C7_witness : Sajilo.analyze_consistency [] = 0.5 :=
  C7_short_transcript_default [] (by decide)

/-- C9: on the empty transcript, with a profile that has no why_us and no
intro, signal extraction returns the documented defaults for consistency,
depth and motivation; the embedded analyzers are total functions, so no
error is possible. -/
theorem C9_empty_transcript_defaults (person : Sajilo.ExtendedPerson)
    (hw : person.why_us = none) (hi : person.intro = none) :
    (Sajilo.extract_signals Sajilo.defaultSettings person []).consistency_score = 0.5 ∧
    (Sajilo.extract_signals Sajilo.defaultSettings person []).depth_score = 0.3 ∧
    (Sajilo.extract_signals Sajilo.defaultSettings person []).motivation_alignment = 0.4 := by
  refine ⟨?_, ?_, ?_⟩
  · simp +decide [Sajilo.extract_signals, Sajilo.analyze_consistency]
  · simp +decide [Sajilo.extract_signals, Sajilo.analyze_depth,
      Sajilo.depth_technical_turns]
  · simp +decide [Sajilo.extract_signals, Sajilo.analyze_motivation,
      Sajilo.motivation_factors, Sajilo.motivation_turn_factors,
      Sajilo.why_us_factors, Sajilo.intro_factors, hw, hi]

/-- Witness for C9 at the empty profile. -/
theorem C9_witness :
    (Sajilo.extract_signals Sajilo.defaultSettings Sajilo.person_empty
      []).consistency_score = 0.5 ∧
    (Sajilo.extract_signals Sajilo.defaultSettings Sajilo.person_empty
      []).depth_score = 0.3 ∧
    (Sajilo.extract_signals Sajilo.defaultSettings Sajilo.person_empty
      []).motivation_alignment = 0.4 :=
  C9_empty_transcript_defaults Sajilo.person_empty rfl rfl

/-- A successful association-list lookup returns one of the stored values. -/
theorem lookup_mem_values {β : Type} (l : List (String × β)) (a : String) (b : β)
    (h : l.lookup a = some b) : b ∈ l.map Prod.snd := by
  induction l with
  | nil => simp [List.lookup] at h
  | cons p t ih =>
      obtain ⟨k, v⟩ := p
      simp only [List.lookup] at h
      cases hak : (a == k) with
      | true =>
          rw [hak] at h
          simp only [] at h
          obtain rfl := Option.some.inj h
          simp
      | false =>
          rw [hak] at h
          simp only [] at h
          simp only [List.map_cons, List.mem_cons]
          exact Or.inr (ih h)

/-- The guarded filterMap of the source technical-alignment loop coincides
with the filterMap keyed on mapping membership, because every stored mapping
value is a non-empty skill list. -/
theorem focus_scores_eq (person : Sajilo.ExtendedPerson) (focus : List String) :
    (focus.filterMap fun focus_area =>
      if ((Sajilo.focus_skill_mapping.lookup focus_area).getD []).toFinset.card ≠ 0 then
        some (min ((((person.skills_tags.map Sajilo.pyLower).toFinset ∩
            ((Sajilo.focus_skill_mapping.lookup focus_area).getD []).toFinset).card : ℚ) / 3) 1)
      else none) =
    focus.filterMap fun a =>
      (Sajilo.focus_skill_mapping.lookup a).map fun mapped =>
        min ((((person.skills_tags.map Sajilo.pyLower).toFinset ∩
          mapped.toFinset).card : ℚ) / 3) 1 := by
  induction focus with
  | nil => rfl
  | cons a t ih =>
      cases hl : Sajilo.focus_skill_mapping.lookup a with
      | none =>
          simp only [List.filterMap_cons, hl]
          simp
          simpa using ih
      | some l =>
          have hne : l.toFinset.card ≠ 0 := by
            have hmem := lookup_mem_values _ _ _ hl
            have hall : ∀ v ∈ Sajilo.focus_skill_mapping.map Prod.snd,
                v.toFinset.card ≠ 0 := by decide
            exact hall l hmem
          simp only [List.filterMap_cons, hl]
          simp [hne]
          simpa using ih

/-- C6 counterexample: with an empty technical focus list the source
default is 0.8, not the claimed 0.5. -/
theorem C6_counterexample :
    Sajilo.job_info_no_focus.technical_focus = [] ∧
    Sajilo.compute_technical_alignment Sajilo.person_python
      Sajilo.job_info_no_focus = 0.8 ∧
    Sajilo.compute_technical_alignment Sajilo.person_python
      Sajilo.job_info_no_focus ≠ 0.5 := by
  have hval : Sajilo.compute_technical_alignment Sajilo.person_python
      Sajilo.job_info_no_focus = 0.8 := by
    simp +decide [Sajilo.compute_technical_alignment]
  exact ⟨rfl, hval, by rw [hval]; norm_num⟩

/-- C6 as amended: the default for an empty focus list is 0.8; when focus
areas are defined, the factor averages the overlap scores of the areas that
have an entry in the fixed mapping, with 0.5 when none has an entry. -/
theorem C6_technical_alignment (person : Sajilo.ExtendedPerson) (j : Sajilo.JobInfo) :
    Sajilo.compute_technical_alignment person j =
      Sajilo.technical_alignment_amended person j ∧
    (j.technical_focus = [] →
      Sajilo.compute_technical_alignment person j = 0.8) := by
  constructor
  · simp only [Sajilo.compute_technical_alignment, Sajilo.technical_alignment_amended]
    split
    · rfl
    · rw [focus_scores_eq]
  · intro h
    simp [Sajilo.compute_technical_alignment, h]

/-- Witness for C6 at the python candidate and the focus-free job. -/
theorem C6_witness :
    Sajilo.compute_technical_alignment Sajilo.person_python
      Sajilo.job_info_no_focus = 0.8 :=
  (C6_technical_alignment Sajilo.person_python Sajilo.job_info_no_focus).2 rfl

/-- C8 counterexample: on a transcript with two identical candidate
motivation turns and no profile text there is exactly one motivation source,
yet the source applies the corroboration boost (one factor per turn), so
the per-source description is false. -/
theorem C8_counterexample : ¬Sajilo.motivation_claim := by
  have e1 : Sajilo.analyze_motivation Sajilo.two_motivation_turns
      Sajilo.person_empty = 341 / 10000 := by
    simp +decide [Sajilo.analyze_motivation, Sajilo.motivation_factors,
      Sajilo.motivation_turn_factors, Sajilo.why_us_factors, Sajilo.intro_factors,
      Sajilo.two_motivation_turns, Sajilo.person_empty, Sajilo.intentHas,
      Sajilo.intentValue, Sajilo.pyLower, Sajilo.strContains, Sajilo.containsSub,
      Sajilo.countContained, Sajilo.passion_keywords, Sajilo.specific_interests,
      Sajilo.future_thinking, Sajilo.listAvg]
    norm_num [String.length]
  have e2 : Sajilo.analyze_motivation_spec Sajilo.two_motivation_turns
      Sajilo.person_empty = 31 / 1000 := by
    simp +decide [Sajilo.analyze_motivation_spec, Sajilo.motivation_turn_factors,
      Sajilo.why_us_factors, Sajilo.intro_factors, Sajilo.two_motivation_turns,
      Sajilo.person_empty, Sajilo.intentHas, Sajilo.intentValue, Sajilo.pyLower,
      Sajilo.strContains, Sajilo.containsSub, Sajilo.countContained,
      Sajilo.passion_keywords, Sajilo.specific_interests, Sajilo.future_thinking,
      Sajilo.listAvg]
    norm_num [String.length]
  intro h
  have heq := h Sajilo.two_motivation_turns Sajilo.person_empty
  rw [e1, e2] at heq
  norm_num at heq

/-- C8 as amended: the analyzer collects one bounded factor per
candidate-authored motivation turn plus one per qualifying profile field,
averages them, applies the ten percent boost exactly when more than one
factor (not source) was collected, and returns 0.4 when none was. -/
theorem C8_motivation_factors (turns : List Sajilo.ChatTurn)
    (person : Sajilo.ExtendedPerson) :
    (∀ x ∈ Sajilo.motivation_factors turns person, Sajilo.inUnit x) ∧
    Sajilo.analyze_motivation turns person =
      (if Sajilo.motivation_factors turns person = [] then 0.4
       else if 1 < (Sajilo.motivation_factors turns person).length then
         min (Sajilo.listAvg (Sajilo.motivation_factors turns person) * 1.1) 1
       else Sajilo.listAvg (Sajilo.motivation_factors turns person)) := by
  refine ⟨Sajilo.motivation_factors_inUnit turns person, ?_⟩
  simp only [Sajilo.analyze_motivation, List.isEmpty_iff]

/-- Witness for C8 at the empty transcript and empty profile. -/
theorem C8_witness :
    Sajilo.analyze_motivation [] Sajilo.person_empty = 0.4 := by
  have h := (C8_motivation_factors [] Sajilo.person_empty).2
  simpa [Sajilo.motivation_factors, Sajilo.motivation_turn_factors,
    Sajilo.why_us_factors, Sajilo.intro_factors, Sajilo.person_empty] using h

/-- C10 counterexample: the engine accepts a configuration whose weights sum
to two and whose thresholds are inverted; initialization never fails. -/
theorem C10_counterexample : ¬Sajilo.startup_validation_claim := by
  intro h
  have hbad : ¬Sajilo.valid_scoring_config Sajilo.bad_settings := by
    intro hv
    have h1 := hv.1
    norm_num [Sajilo.weights_total, Sajilo.bad_settings, abs_le] at h1
  obtain ⟨msg, hmsg⟩ := h Sajilo.bad_settings hbad
  simp [Sajilo.init_scoring_engine] at hmsg

/-- C10 as amended: neither the configuration class nor the engine
constructor validates anything — initialization succeeds for every
configuration, including one with weights summing to two and inverted
thresholds, and the invalid values flow into per-request scoring, where they
can produce a fit score above one. -/
theorem C10_no_validation :
    (∀ st : Sajilo.Settings, Sajilo.init_scoring_engine st =
      .ok { weights := st.SCORING_WEIGHTS
            thresholds := st.SCORING_THRESHOLDS
            fraud_penalty := st.FRAUD_PENALTY_MULTIPLIER }) ∧
    Sajilo.weights_total Sajilo.bad_settings.SCORING_WEIGHTS = 2 ∧
    Sajilo.bad_settings.SCORING_THRESHOLDS.top <
      Sajilo.bad_settings.SCORING_THRESHOLDS.borderline ∧
    Sajilo.adjusted_score Sajilo.bad_settings 1 Sajilo.perfect_signals = 2 ∧
    1 < Sajilo.adjusted_score Sajilo.bad_settings 1 Sajilo.perfect_signals := by
  refine ⟨fun st => rfl, ?_, ?_, ?_, ?_⟩
  · norm_num [Sajilo.weights_total, Sajilo.bad_settings]
  · norm_num [Sajilo.bad_settings]
  · norm_num [Sajilo.adjusted_score, Sajilo.raw_score, Sajilo.confidence_multiplier,
      Sajilo.bad_settings, Sajilo.perfect_signals]
  · norm_num [Sajilo.adjusted_score, Sajilo.raw_score, Sajilo.confidence_multiplier,
      Sajilo.bad_settings, Sajilo.perfect_signals]

